import Mathlib

/-!
Shallow embedding of the OCR front-end client (src/my-ocr/src/App.jsx).

The component's React state hooks become fields of `AppState`; each event
handler becomes a function `AppState → AppState` (with the event's data as
extra arguments).  The asynchronous `processTextDetection` is modelled as a
function of the fetch outcome: it returns the final state together with the
list of primitive state-update actions it performs, in program order, so
that ordering and absence-of-effect claims can be stated about the trace.
The notification hide timer (a `setTimeout` of 3000 ms inside
`showCustomMessageBox`) is modelled separately with explicit pending timer
deadlines, since timer interleaving is what the temporal claim is about.
-/

/-- A browser `File` object as the handlers use it: name, declared MIME
type (`file.type`), and size. -/
structure JsFile where
  name : String
  type : String
  size : Nat
deriving DecidableEq, Repr

/-- The `messageBox` state hook: `{ visible, content }` (App.jsx line 14). -/
structure MessageBox where
  visible : Bool
  content : String
deriving DecidableEq, Repr

/-- The component state: one field per `useState` hook of `App`
(App.jsx lines 5-15).  `selectedImage` is the selected file,
`highlightedImageSrc` the base64 result image, `textRegionsDetected` the
count from the backend, `isProcessing` the busy flag, `showResultPage`
the view selector, `error` the inline error text. -/
structure AppState where
  selectedImage : Option JsFile
  highlightedImageSrc : Option String
  textRegionsDetected : Nat
  isDragOver : Bool
  isProcessing : Bool
  ocrFeatureMessage : String
  showResultPage : Bool
  error : String
  messageBox : MessageBox
  mobileMenuOpen : Bool
deriving DecidableEq, Repr

/-- The initial state of the hooks (App.jsx lines 5-15). -/
def initialState : AppState :=
  { selectedImage := none
    highlightedImageSrc := none
    textRegionsDetected := 0
    isDragOver := false
    isProcessing := false
    ocrFeatureMessage := "Text extraction coming soon! For now, you can see the detected text highlighted in the image preview."
    showResultPage := false
    error := ""
    messageBox := { visible := false, content := "" }
    mobileMenuOpen := false }

/-- Error message of `handleFileChange` for a non-image file (line 38). -/
def msgUploadReject : String :=
  "Please upload an image file (JPG, PNG). PDF support for detection is not yet available."

/-- Error message of `handleDrop` for a non-image file (line 64). -/
def msgDropReject : String :=
  "Please drop an image file (JPG, PNG)."

/-- Error message of `processTextDetection` when no file is selected (line 73). -/
def msgNoImage : String :=
  "Please select an image to process."

/-- Fallback error for an application-level failure payload (line 114). -/
def unknownDetectionError : String :=
  "Unknown error occurred during detection."

/-- Success toast text (line 111). -/
def msgDetectComplete : String :=
  "🎉 Text detection complete!"

/-- Failure toast text for an application-level failure (line 115). -/
def msgDetectFailedRetry : String :=
  "❌ Detection failed. Please try again."

/-- Failure toast text of the catch block (line 120). -/
def msgDetectFailedConn : String :=
  "❌ Detection failed. Please check backend connection."

/-- `showCustomMessageBox` (lines 21-26), state part: makes the message box
visible with the new content.  The 3-second hide timer it schedules is
modelled by `showCustomMessageBoxTimed` below. -/
def showCustomMessageBox (message : String) (s : AppState) : AppState :=
  { s with messageBox := { visible := true, content := message } }

/-- `handleFileChange` (lines 29-42).  `files` models `event.target.files`;
the handler looks only at `files[0]`.  An image-typed file is stored and the
error cleared; a non-image file sets an error and clears the selection; an
empty file list does nothing. -/
def handleFileChange (files : List JsFile) (s : AppState) : AppState :=
  match files.head? with
  | none => s
  | some file =>
    if file.type.startsWith "image/" then
      { s with selectedImage := some file, error := "" }
    else
      { s with error := msgUploadReject, selectedImage := none }

/-- `handleDragOver` (lines 45-48). -/
def handleDragOver (s : AppState) : AppState :=
  { s with isDragOver := true }

/-- `handleDragLeave` (lines 50-52). -/
def handleDragLeave (s : AppState) : AppState :=
  { s with isDragOver := false }

/-- `handleDrop` (lines 54-68).  First clears the drag-active flag, then
validates `event.dataTransfer.files[0]` exactly as `handleFileChange` does,
with its own rejection message. -/
def handleDrop (files : List JsFile) (s : AppState) : AppState :=
  let s1 := { s with isDragOver := false }
  match files.head? with
  | none => s1
  | some file =>
    if file.type.startsWith "image/" then
      { s1 with selectedImage := some file, error := "" }
    else
      { s1 with error := msgDropReject, selectedImage := none }

/-- `handleBackToInput` (lines 126-132): leaves the result page and clears
the selection, the result image, the count and the error. -/
def handleBackToInput (s : AppState) : AppState :=
  { s with showResultPage := false
           selectedImage := none
           highlightedImageSrc := none
           textRegionsDetected := 0
           error := "" }

/-- The JSON body of a backend response, with the fields the client reads:
`success`, `highlighted_image`, `text_regions_detected`, `error`.  `none`
in an `Option` field models an absent (`undefined`) field. -/
structure JsonBody where
  success : Bool
  highlighted_image : Option String
  text_regions_detected : Nat
  error : Option String
deriving DecidableEq, Repr

/-- The outcome of the `fetch` call in `processTextDetection`:
either a response arrived — with `response.ok`, `response.status`,
`response.statusText`, and the result of `response.json()`
(`Except.error m` models a body that is not parseable JSON, `m` being the
message of the exception the parse throws) — or the fetch itself threw a
transport-level exception with message `msg`. -/
inductive FetchResult where
  | response (ok : Bool) (status : Nat) (statusText : String)
      (body : Except String JsonBody)
  | networkFailure (msg : String)
deriving Repr

/-- JavaScript `a || b` on an optional string: an absent field and the
empty string are both falsy, so either yields the fallback. -/
def jsOrString : Option String → String → String
  | some s, fb => if s = "" then fb else s
  | none, fb => fb

/-- The template-literal fallback thrown for a non-2xx response
(line 102). -/
def httpFallback (status : Nat) : String :=
  "HTTP error! status: " ++ toString status

/-- The message of the `Error` thrown for a non-2xx response
(lines 93-102): the parsed body's `error` field when the body parses,
else the transport's status text, with the HTTP-status template as the
`||` fallback in both cases. -/
def thrownHttpError (status : Nat) (statusText : String) :
    Except String JsonBody → String
  | Except.ok body => jsOrString body.error (httpFallback status)
  | Except.error _ => jsOrString (some statusText) (httpFallback status)

/-- The error text set by the catch block (line 119) around a thrown
message `m`. -/
def connectivityError (m : String) : String :=
  "Failed to connect to backend or process image: " ++ m ++
    ". Please ensure the backend is running."

/-- The primitive state updates `processTextDetection` performs, in
program order, plus the outbound network request.  Each constructor is one
setter call of App.jsx; `networkRequest` marks the `fetch` of line 88. -/
inductive UpdateAction where
  | setIsProcessing (b : Bool)
  | setError (msg : String)
  | setHighlightedImageSrc (v : Option String)
  | setTextRegionsDetected (n : Nat)
  | networkRequest (fileName : String)
  | notify (msg : String)
  | setShowResultPage (b : Bool)
deriving DecidableEq, Repr

/-- `processTextDetection` (lines 71-124), as a function of the fetch
outcome.  Returns the state after the invocation completes together with
the trace of primitive actions in the order the source performs them:
guard on a missing selection (lines 72-75); busy flag up, error and prior
result cleared (lines 77-80); the request (line 88); then per outcome the
non-2xx throw into the catch block (lines 93-102, 117-120), the
success-payload path (lines 108-112), the application-failure path
(lines 113-116), a 2xx body that fails to parse as JSON reaching the same
catch block (lines 105, 117-120); and the `finally` clearing the busy flag
on every path (lines 121-123). -/
def processTextDetection (fr : FetchResult) (s : AppState) :
    AppState × List UpdateAction :=
  match s.selectedImage with
  | none =>
    ({ s with error := msgNoImage }, [UpdateAction.setError msgNoImage])
  | some file =>
    let s1 : AppState :=
      { s with isProcessing := true
               error := ""
               highlightedImageSrc := none
               textRegionsDetected := 0 }
    let pre : List UpdateAction :=
      [UpdateAction.setIsProcessing true, UpdateAction.setError "",
       UpdateAction.setHighlightedImageSrc none, UpdateAction.setTextRegionsDetected 0,
       UpdateAction.networkRequest file.name]
    match fr with
    | FetchResult.networkFailure m =>
      let e := connectivityError m
      ({ showCustomMessageBox msgDetectFailedConn { s1 with error := e }
           with isProcessing := false },
       pre ++ [UpdateAction.setError e, UpdateAction.notify msgDetectFailedConn,
               UpdateAction.setIsProcessing false])
    | FetchResult.response ok status statusText body =>
      if ok then
        match body with
        | Except.error m =>
          let e := connectivityError m
          ({ showCustomMessageBox msgDetectFailedConn { s1 with error := e }
               with isProcessing := false },
           pre ++ [UpdateAction.setError e, UpdateAction.notify msgDetectFailedConn,
                   UpdateAction.setIsProcessing false])
        | Except.ok b =>
          if b.success then
            ({ showCustomMessageBox msgDetectComplete
                 { s1 with highlightedImageSrc := b.highlighted_image
                           textRegionsDetected := b.text_regions_detected }
               with showResultPage := true, isProcessing := false },
             pre ++ [UpdateAction.setHighlightedImageSrc b.highlighted_image,
                     UpdateAction.setTextRegionsDetected b.text_regions_detected,
                     UpdateAction.notify msgDetectComplete,
                     UpdateAction.setShowResultPage true,
                     UpdateAction.setIsProcessing false])
          else
            let e := jsOrString b.error unknownDetectionError
            ({ showCustomMessageBox msgDetectFailedRetry { s1 with error := e }
                 with isProcessing := false },
             pre ++ [UpdateAction.setError e, UpdateAction.notify msgDetectFailedRetry,
                     UpdateAction.setIsProcessing false])
      else
        let e := connectivityError (thrownHttpError status statusText body)
        ({ showCustomMessageBox msgDetectFailedConn { s1 with error := e }
             with isProcessing := false },
         pre ++ [UpdateAction.setError e, UpdateAction.notify msgDetectFailedConn,
                 UpdateAction.setIsProcessing false])

/-- The notifier with its timers made explicit: the `messageBox` hook plus
the deadlines (in ms) of the hide callbacks scheduled by `setTimeout` and
not yet fired. -/
structure NotifierState where
  messageBox : MessageBox
  pendingHides : List Nat
deriving DecidableEq, Repr

/-- The notifier before any notification. -/
def notifierInit : NotifierState :=
  { messageBox := { visible := false, content := "" }, pendingHides := [] }

/-- `showCustomMessageBox` (lines 21-26) with its timer: called at time
`now`, it shows the new message and schedules a hide callback for
`now + 3000`.  No existing timer is cancelled (the source keeps no timer
id and never calls `clearTimeout`). -/
def showCustomMessageBoxTimed (message : String) (now : Nat)
    (s : NotifierState) : NotifierState :=
  { messageBox := { visible := true, content := message }
    pendingHides := s.pendingHides ++ [now + 3000] }

/-- A scheduled hide callback with deadline `t` fires (line 24): it hides
the message box unconditionally — the closure does not check whether the
currently shown message is the one it was scheduled for. -/
def hideTimerFires (t : Nat) (s : NotifierState) : NotifierState :=
  if t ∈ s.pendingHides then
    { messageBox := { visible := false, content := "" }
      pendingHides := s.pendingHides.erase t }
  else s

/- Concrete values used by witnesses and counterexamples. -/

/-- A concrete image file. -/
def wFile : JsFile := { name := "a.png", type := "image/png", size := 1024 }

/-- A state with `wFile` selected, as after a valid pick on the input page. -/
def wState : AppState := { initialState with selectedImage := some wFile }

/-- A concrete successful payload with count 42. -/
def wBodySuccess : JsonBody :=
  { success := true
    highlighted_image := some "data:image/png;base64,AAAA"
    text_regions_detected := 42
    error := none }

/- Claim theorems -/

/-- C3: a file offered via the picker or via drop whose declared MIME type
begins with "image/" is stored as the selected file and the prior error is
cleared; any other file sets an error message (the handler's own text) and
leaves the selected file unset. -/
theorem select_file_validates_mime (f : JsFile) (rest : List JsFile)
    (s : AppState) :
    (handleFileChange (f :: rest) s).selectedImage
        = (if f.type.startsWith "image/" then some f else none) ∧
    (handleFileChange (f :: rest) s).error
        = (if f.type.startsWith "image/" then "" else msgUploadReject) ∧
    (handleDrop (f :: rest) s).selectedImage
        = (if f.type.startsWith "image/" then some f else none) ∧
    (handleDrop (f :: rest) s).error
        = (if f.type.startsWith "image/" then "" else msgDropReject) ∧
    msgUploadReject ≠ "" ∧ msgDropReject ≠ "" := by
  by_cases h : f.type.startsWith "image/" <;>
    simp [handleFileChange, handleDrop, h, msgUploadReject, msgDropReject]

/-- C8: the reset action, from any state, clears the selected file, the
result image, the region count and the error in the same step and returns
the view to the input page; every other field is untouched. -/
theorem reset_clears_all_together (s : AppState) :
    handleBackToInput s
      = { s with showResultPage := false
                 selectedImage := none
                 highlightedImageSrc := none
                 textRegionsDetected := 0
                 error := "" } ∧
    (handleBackToInput s).selectedImage = none ∧
    (handleBackToInput s).highlightedImageSrc = none ∧
    (handleBackToInput s).textRegionsDetected = 0 ∧
    (handleBackToInput s).error = "" ∧
    (handleBackToInput s).showResultPage = false := by
  refine ⟨rfl, rfl, rfl, rfl, rfl, rfl⟩

/-- C10: a selection event with an empty file list leaves the state
entirely unchanged; a drop event with an empty file list changes nothing
except clearing the drag-active flag; and a drop event always clears the
drag-active flag, whatever the files are. -/
theorem empty_file_event_frame (s : AppState) (files : List JsFile) :
    handleFileChange [] s = s ∧
    handleDrop [] s = { s with isDragOver := false } ∧
    (handleDrop files s).isDragOver = false := by
  refine ⟨rfl, rfl, ?_⟩
  cases files with
  | nil => rfl
  | cons f rest =>
    by_cases h : f.type.startsWith "image/" <;> simp [handleDrop, h]

/-- C4: invoking submit with no file selected fails immediately: the only
effect is setting the no-image error message — the trace holds no network
request and no busy-flag update, and the busy flag, prior result and
selection are unchanged. -/
theorem submit_without_file_fails_immediately (s : AppState)
    (fr : FetchResult) (h : s.selectedImage = none) :
    processTextDetection fr s
      = ({ s with error := msgNoImage }, [UpdateAction.setError msgNoImage]) ∧
    (processTextDetection fr s).1.isProcessing = s.isProcessing ∧
    (processTextDetection fr s).1.highlightedImageSrc = s.highlightedImageSrc ∧
    (processTextDetection fr s).1.textRegionsDetected = s.textRegionsDetected ∧
    (processTextDetection fr s).1.selectedImage = s.selectedImage ∧
    (processTextDetection fr s).1.showResultPage = s.showResultPage ∧
    (processTextDetection fr s).1.error = msgNoImage ∧
    (∀ n, UpdateAction.networkRequest n ∉ (processTextDetection fr s).2) ∧
    (∀ b, UpdateAction.setIsProcessing b ∉ (processTextDetection fr s).2) := by
  simp [processTextDetection, h]

/-- Witness for C4 at a concrete state with no selected file. -/
theorem submit_without_file_fails_immediately_witness :
    processTextDetection (FetchResult.networkFailure "refused") initialState
      = ({ initialState with error := msgNoImage },
         [UpdateAction.setError msgNoImage]) ∧
    (processTextDetection (FetchResult.networkFailure "refused")
        initialState).1.isProcessing = initialState.isProcessing ∧
    (processTextDetection (FetchResult.networkFailure "refused")
        initialState).1.highlightedImageSrc = initialState.highlightedImageSrc ∧
    (processTextDetection (FetchResult.networkFailure "refused")
        initialState).1.textRegionsDetected = initialState.textRegionsDetected ∧
    (processTextDetection (FetchResult.networkFailure "refused")
        initialState).1.selectedImage = initialState.selectedImage ∧
    (processTextDetection (FetchResult.networkFailure "refused")
        initialState).1.showResultPage = initialState.showResultPage ∧
    (processTextDetection (FetchResult.networkFailure "refused")
        initialState).1.error = msgNoImage ∧
    (∀ n, UpdateAction.networkRequest n
        ∉ (processTextDetection (FetchResult.networkFailure "refused")
            initialState).2) ∧
    (∀ b, UpdateAction.setIsProcessing b
        ∉ (processTextDetection (FetchResult.networkFailure "refused")
            initialState).2) :=
  submit_without_file_fails_immediately initialState
    (FetchResult.networkFailure "refused") rfl

/-- C1: on an HTTP 2xx response whose parsed payload has the success flag
set, the controller stores the payload's encoded image and region count,
shows the success toast (emits a success notification), switches to the
result page, and the busy flag is false after completion. -/
theorem submit_http_success_stores_result (s : AppState) (file : JsFile)
    (status : Nat) (statusText : String) (b : JsonBody)
    (hfile : s.selectedImage = some file) (hsucc : b.success = true) :
    (processTextDetection
        (FetchResult.response true status statusText (Except.ok b))
        s).1.highlightedImageSrc = b.highlighted_image ∧
    (processTextDetection
        (FetchResult.response true status statusText (Except.ok b))
        s).1.textRegionsDetected = b.text_regions_detected ∧
    (processTextDetection
        (FetchResult.response true status statusText (Except.ok b))
        s).1.messageBox = { visible := true, content := msgDetectComplete } ∧
    (processTextDetection
        (FetchResult.response true status statusText (Except.ok b))
        s).1.showResultPage = true ∧
    (processTextDetection
        (FetchResult.response true status statusText (Except.ok b))
        s).1.isProcessing = false ∧
    UpdateAction.notify msgDetectComplete
      ∈ (processTextDetection
          (FetchResult.response true status statusText (Except.ok b)) s).2 := by
  simp [processTextDetection, hfile, hsucc, showCustomMessageBox]

/-- Witness for C1: the example payload with count 42 yields the result
page showing count 42 with busy cleared. -/
theorem submit_http_success_stores_result_witness :
    (processTextDetection
        (FetchResult.response true 200 "OK" (Except.ok wBodySuccess))
        wState).1.highlightedImageSrc = wBodySuccess.highlighted_image ∧
    (processTextDetection
        (FetchResult.response true 200 "OK" (Except.ok wBodySuccess))
        wState).1.textRegionsDetected = wBodySuccess.text_regions_detected ∧
    (processTextDetection
        (FetchResult.response true 200 "OK" (Except.ok wBodySuccess))
        wState).1.messageBox
      = { visible := true, content := msgDetectComplete } ∧
    (processTextDetection
        (FetchResult.response true 200 "OK" (Except.ok wBodySuccess))
        wState).1.showResultPage = true ∧
    (processTextDetection
        (FetchResult.response true 200 "OK" (Except.ok wBodySuccess))
        wState).1.isProcessing = false ∧
    UpdateAction.notify msgDetectComplete
      ∈ (processTextDetection
          (FetchResult.response true 200 "OK" (Except.ok wBodySuccess))
          wState).2 :=
  submit_http_success_stores_result wState wFile 200 "OK" wBodySuccess rfl rfl

/-- C6: on a transport-level exception — the fetch throwing with message
`m`, or a 2xx response whose body fails to parse as JSON with parse-error
message `m` — the surfaced error is the connectivity message embedding
`m` (the text beginning "Failed to connect to backend or process
image..."), the failure toast is shown, and the busy flag is false after
completion. -/
theorem submit_transport_error_connectivity (s : AppState) (file : JsFile)
    (m : String) (status : Nat) (statusText : String)
    (hfile : s.selectedImage = some file) :
    (processTextDetection (FetchResult.networkFailure m) s).1.error
        = connectivityError m ∧
    (processTextDetection (FetchResult.networkFailure m) s).1.isProcessing
        = false ∧
    (processTextDetection (FetchResult.networkFailure m) s).1.messageBox
        = { visible := true, content := msgDetectFailedConn } ∧
    UpdateAction.notify msgDetectFailedConn
        ∈ (processTextDetection (FetchResult.networkFailure m) s).2 ∧
    (processTextDetection
        (FetchResult.response true status statusText (Except.error m))
        s).1.error = connectivityError m ∧
    (processTextDetection
        (FetchResult.response true status statusText (Except.error m))
        s).1.isProcessing = false ∧
    UpdateAction.notify msgDetectFailedConn
        ∈ (processTextDetection
            (FetchResult.response true status statusText (Except.error m))
            s).2 ∧
    connectivityError m
        = "Failed to connect to backend or process image: " ++ m ++
            ". Please ensure the backend is running." := by
  simp [processTextDetection, hfile, showCustomMessageBox, connectivityError]

/-- Witness for C6: a concrete connection-refused failure surfaces the
connectivity message and resolves busy to false. -/
theorem submit_transport_error_connectivity_witness :
    (processTextDetection (FetchResult.networkFailure "Failed to fetch")
        wState).1.error = connectivityError "Failed to fetch" ∧
    (processTextDetection (FetchResult.networkFailure "Failed to fetch")
        wState).1.isProcessing = false ∧
    (processTextDetection (FetchResult.networkFailure "Failed to fetch")
        wState).1.messageBox
      = { visible := true, content := msgDetectFailedConn } ∧
    UpdateAction.notify msgDetectFailedConn
      ∈ (processTextDetection (FetchResult.networkFailure "Failed to fetch")
          wState).2 ∧
    (processTextDetection
        (FetchResult.response true 200 "OK" (Except.error "Failed to fetch"))
        wState).1.error = connectivityError "Failed to fetch" ∧
    (processTextDetection
        (FetchResult.response true 200 "OK" (Except.error "Failed to fetch"))
        wState).1.isProcessing = false ∧
    UpdateAction.notify msgDetectFailedConn
      ∈ (processTextDetection
          (FetchResult.response true 200 "OK" (Except.error "Failed to fetch"))
          wState).2 ∧
    connectivityError "Failed to fetch"
      = "Failed to connect to backend or process image: " ++
          "Failed to fetch" ++ ". Please ensure the backend is running." :=
  submit_transport_error_connectivity wState wFile "Failed to fetch" 200 "OK"
    rfl

/-- A non-2xx response body carrying the error message "bad image". -/
def c2Body : JsonBody :=
  { success := false
    highlighted_image := none
    text_regions_detected := 0
    error := some "bad image" }

/-- C2 counterexample: for a non-2xx response with parsed body
`error := "bad image"`, the surfaced error text does NOT equal
"bad image" — the catch block wraps the thrown message in its
connectivity text, so the surfaced error is
"Failed to connect to backend or process image: bad image. Please ensure
the backend is running.". -/
theorem http_error_exact_text_counterexample :
    (processTextDetection
        (FetchResult.response false 400 "Bad Request" (Except.ok c2Body))
        wState).1.error ≠ "bad image" ∧
    (processTextDetection
        (FetchResult.response false 400 "Bad Request" (Except.ok c2Body))
        wState).1.error = connectivityError "bad image" := by
  constructor
  · decide
  · rfl

/-- C2 (amended): on a non-2xx response the thrown message — the parsed
body's error field when the body parses and the field is a non-empty
string, else the transport's status text (when non-empty) — is surfaced
wrapped in the catch block's connectivity text rather than verbatim; the
failure toast is shown and the view selector is unchanged, so the view
remains on the input page. -/
theorem http_error_surfaces_wrapped_message (s : AppState) (file : JsFile)
    (status : Nat) (statusText : String) (body : Except String JsonBody)
    (hfile : s.selectedImage = some file) :
    (processTextDetection (FetchResult.response false status statusText body)
        s).1.error = connectivityError (thrownHttpError status statusText body) ∧
    (∀ b msg, body = Except.ok b → b.error = some msg → msg ≠ "" →
        thrownHttpError status statusText body = msg) ∧
    (∀ m, body = Except.error m → statusText ≠ "" →
        thrownHttpError status statusText body = statusText) ∧
    (processTextDetection (FetchResult.response false status statusText body)
        s).1.messageBox = { visible := true, content := msgDetectFailedConn } ∧
    UpdateAction.notify msgDetectFailedConn
      ∈ (processTextDetection (FetchResult.response false status statusText body)
          s).2 ∧
    (processTextDetection (FetchResult.response false status statusText body)
        s).1.showResultPage = s.showResultPage := by
  refine ⟨?_, ?_, ?_, ?_, ?_, ?_⟩
  · simp [processTextDetection, hfile, showCustomMessageBox]
  · intro b msg hb he hne
    subst hb
    simp [thrownHttpError, jsOrString, he, hne]
  · intro m hb hne
    subst hb
    simp [thrownHttpError, jsOrString, hne]
  · simp [processTextDetection, hfile, showCustomMessageBox]
  · simp [processTextDetection, hfile, showCustomMessageBox]
  · simp [processTextDetection, hfile, showCustomMessageBox]

/-- Witness for C2 (amended): the "bad image" body at a concrete state,
with everything instantiated. -/
theorem http_error_surfaces_wrapped_message_witness :
    (processTextDetection
        (FetchResult.response false 400 "Bad Request" (Except.ok c2Body))
        wState).1.error
      = connectivityError (thrownHttpError 400 "Bad Request" (Except.ok c2Body)) ∧
    thrownHttpError 400 "Bad Request" (Except.ok c2Body) = "bad image" ∧
    (processTextDetection
        (FetchResult.response false 400 "Bad Request" (Except.ok c2Body))
        wState).1.messageBox
      = { visible := true, content := msgDetectFailedConn } ∧
    UpdateAction.notify msgDetectFailedConn
      ∈ (processTextDetection
          (FetchResult.response false 400 "Bad Request" (Except.ok c2Body))
          wState).2 ∧
    (processTextDetection
        (FetchResult.response false 400 "Bad Request" (Except.ok c2Body))
        wState).1.showResultPage = wState.showResultPage := by
  have h := http_error_surfaces_wrapped_message wState wFile 400 "Bad Request"
    (Except.ok c2Body) rfl
  exact ⟨h.1, h.2.1 c2Body "bad image" rfl rfl (by decide), h.2.2.2.1,
    h.2.2.2.2.1, h.2.2.2.2.2⟩

/-- A 2xx payload with the failure flag and an empty-string error field. -/
def c5Body : JsonBody :=
  { success := false
    highlighted_image := none
    text_regions_detected := 0
    error := some "" }

/-- C5 counterexample: a 2xx payload with the failure flag that carries
the error message "" — the payload carries an error message, yet the
surfaced error is the generic fallback, not that message: the source uses
JavaScript `||`, which treats the empty string as falsy. -/
theorem app_failure_empty_error_counterexample :
    c5Body.error = some "" ∧
    (processTextDetection
        (FetchResult.response true 200 "OK" (Except.ok c5Body))
        wState).1.error = unknownDetectionError ∧
    unknownDetectionError ≠ "" := by
  refine ⟨rfl, rfl, by decide⟩

/-- C5 (amended): on an HTTP 2xx response whose payload has the failure
flag, the surfaced error equals the payload's error message when that is a
non-empty string, and the generic fallback when the payload carries none
or carries the empty string; the failure toast is shown, and the view
selector is unchanged — the controller never switches to the result
page. -/
theorem app_failure_surfaces_error_or_fallback (s : AppState)
    (file : JsFile) (status : Nat) (statusText : String) (b : JsonBody)
    (hfile : s.selectedImage = some file) (hfail : b.success = false) :
    (processTextDetection
        (FetchResult.response true status statusText (Except.ok b))
        s).1.error = jsOrString b.error unknownDetectionError ∧
    (∀ msg, b.error = some msg → msg ≠ "" →
        jsOrString b.error unknownDetectionError = msg) ∧
    (b.error = none →
        jsOrString b.error unknownDetectionError = unknownDetectionError) ∧
    (b.error = some "" →
        jsOrString b.error unknownDetectionError = unknownDetectionError) ∧
    (processTextDetection
        (FetchResult.response true status statusText (Except.ok b))
        s).1.messageBox = { visible := true, content := msgDetectFailedRetry } ∧
    UpdateAction.notify msgDetectFailedRetry
      ∈ (processTextDetection
          (FetchResult.response true status statusText (Except.ok b)) s).2 ∧
    (processTextDetection
        (FetchResult.response true status statusText (Except.ok b))
        s).1.showResultPage = s.showResultPage ∧
    UpdateAction.setShowResultPage true
      ∉ (processTextDetection
          (FetchResult.response true status statusText (Except.ok b)) s).2 := by
  refine ⟨?_, ?_, ?_, ?_, ?_, ?_, ?_, ?_⟩
  · simp [processTextDetection, hfile, hfail, showCustomMessageBox]
  · intro msg he hne
    simp [jsOrString, he, hne]
  · intro he
    simp [jsOrString, he]
  · intro he
    simp [jsOrString, he]
  · simp [processTextDetection, hfile, hfail, showCustomMessageBox]
  · simp [processTextDetection, hfile, hfail, showCustomMessageBox]
  · simp [processTextDetection, hfile, hfail, showCustomMessageBox]
  · simp [processTextDetection, hfile, hfail, showCustomMessageBox]

/-- Witness for C5 (amended): a failure payload carrying the message
"detection model not loaded" surfaces it verbatim; one carrying the empty
string gets the fallback. -/
theorem app_failure_surfaces_error_or_fallback_witness :
    (processTextDetection
        (FetchResult.response true 200 "OK"
          (Except.ok { success := false, highlighted_image := none,
                       text_regions_detected := 0,
                       error := some "detection model not loaded" }))
        wState).1.error
      = jsOrString (some "detection model not loaded") unknownDetectionError ∧
    jsOrString (some "detection model not loaded") unknownDetectionError
      = "detection model not loaded" ∧
    (processTextDetection
        (FetchResult.response true 200 "OK"
          (Except.ok { success := false, highlighted_image := none,
                       text_regions_detected := 0,
                       error := some "detection model not loaded" }))
        wState).1.messageBox
      = { visible := true, content := msgDetectFailedRetry } ∧
    (processTextDetection
        (FetchResult.response true 200 "OK"
          (Except.ok { success := false, highlighted_image := none,
                       text_regions_detected := 0,
                       error := some "detection model not loaded" }))
        wState).1.showResultPage = wState.showResultPage := by
  have h := app_failure_surfaces_error_or_fallback wState wFile 200 "OK"
    { success := false, highlighted_image := none, text_regions_detected := 0,
      error := some "detection model not loaded" } rfl rfl
  exact ⟨h.1, h.2.1 "detection model not loaded" rfl (by decide),
    h.2.2.2.2.1, h.2.2.2.2.2.2.1⟩

/-- C7 counterexample: on a concrete submission the trace begins with the
busy flag being set to true, and only then are the prior error, result
image and count cleared (source lines 77-80 issue `setIsProcessing(true)`
first) — so the busy flag is NOT first set to true after the prior result
and error have been cleared, as the first occurrence indices show. -/
theorem busy_set_before_clears_counterexample :
    (processTextDetection (FetchResult.networkFailure "refused") wState).2
      = [UpdateAction.setIsProcessing true, UpdateAction.setError "",
         UpdateAction.setHighlightedImageSrc none,
         UpdateAction.setTextRegionsDetected 0,
         UpdateAction.networkRequest "a.png",
         UpdateAction.setError (connectivityError "refused"),
         UpdateAction.notify msgDetectFailedConn,
         UpdateAction.setIsProcessing false] ∧
    List.indexOf (UpdateAction.setIsProcessing true)
        (processTextDetection (FetchResult.networkFailure "refused") wState).2
      = 0 ∧
    List.indexOf (UpdateAction.setError "")
        (processTextDetection (FetchResult.networkFailure "refused") wState).2
      = 1 ∧
    List.indexOf (UpdateAction.setHighlightedImageSrc none)
        (processTextDetection (FetchResult.networkFailure "refused") wState).2
      = 2 ∧
    List.indexOf (UpdateAction.setTextRegionsDetected 0)
        (processTextDetection (FetchResult.networkFailure "refused") wState).2
      = 3 := by
  refine ⟨rfl, ?_, ?_, ?_, ?_⟩ <;> decide

/-- C7 (amended): on every submission with a selected file, whatever the
outcome, the invocation starts by setting the busy flag to true and only
then clears the prior error, result image and count — all before the
network request — and the busy flag is cleared as the last action, so it
is false after the invocation completes. -/
theorem busy_flag_lifecycle (s : AppState) (file : JsFile)
    (fr : FetchResult) (hfile : s.selectedImage = some file) :
    (processTextDetection fr s).2.take 5
      = [UpdateAction.setIsProcessing true, UpdateAction.setError "",
         UpdateAction.setHighlightedImageSrc none,
         UpdateAction.setTextRegionsDetected 0,
         UpdateAction.networkRequest file.name] ∧
    (processTextDetection fr s).1.isProcessing = false ∧
    (processTextDetection fr s).2.getLast?
      = some (UpdateAction.setIsProcessing false) := by
  cases fr with
  | networkFailure m =>
    simp [processTextDetection, hfile, List.getLast?]
  | response ok status statusText body =>
    cases ok with
    | false =>
      simp [processTextDetection, hfile, List.getLast?]
    | true =>
      cases body with
      | error m =>
        simp [processTextDetection, hfile, List.getLast?]
      | ok b =>
        cases hb : b.success with
        | false =>
          simp [processTextDetection, hfile, hb, List.getLast?]
        | true =>
          simp [processTextDetection, hfile, hb, List.getLast?]

/-- Witness for C7 (amended) at a concrete submission. -/
theorem busy_flag_lifecycle_witness :
    (processTextDetection (FetchResult.networkFailure "refused")
        wState).2.take 5
      = [UpdateAction.setIsProcessing true, UpdateAction.setError "",
         UpdateAction.setHighlightedImageSrc none,
         UpdateAction.setTextRegionsDetected 0,
         UpdateAction.networkRequest wFile.name] ∧
    (processTextDetection (FetchResult.networkFailure "refused")
        wState).1.isProcessing = false ∧
    (processTextDetection (FetchResult.networkFailure "refused")
        wState).2.getLast? = some (UpdateAction.setIsProcessing false) :=
  busy_flag_lifecycle wState wFile (FetchResult.networkFailure "refused") rfl

/-- C9 counterexample: notify "first" at time 0 schedules a hide at 3000;
notify "second" at time 2000 replaces it (visible, content "second") and
schedules its own hide at 5000; when the stale timer from the first call
fires at 3000 it hides the box unconditionally — so the newer message is
hidden at 3000, strictly before its own 3-second delay elapses at 5000. -/
theorem stale_timer_hides_newer_counterexample :
    (showCustomMessageBoxTimed "second" 2000
        (showCustomMessageBoxTimed "first" 0 notifierInit)).messageBox
      = { visible := true, content := "second" } ∧
    (3000 : Nat) ∈ (showCustomMessageBoxTimed "second" 2000
        (showCustomMessageBoxTimed "first" 0 notifierInit)).pendingHides ∧
    (hideTimerFires 3000 (showCustomMessageBoxTimed "second" 2000
        (showCustomMessageBoxTimed "first" 0
          notifierInit))).messageBox.visible = false ∧
    (3000 : Nat) < 2000 + 3000 := by
  refine ⟨rfl, by decide, by decide, by decide⟩

/-- C9 (amended): `notify` called at time `now` immediately replaces any
visible notification with the new message, makes it visible, and schedules
a hide callback for `now + 3000`; every scheduled hide callback, when it
fires, hides whatever message is then visible unconditionally — the source
never cancels a timer, so a stale hide timer from an earlier call CAN hide
a newer message before that message's own 3-second delay has elapsed. -/
theorem notify_shows_and_any_timer_hides (msg : String) (now t : Nat)
    (s : NotifierState) :
    (showCustomMessageBoxTimed msg now s).messageBox
      = { visible := true, content := msg } ∧
    (now + 3000) ∈ (showCustomMessageBoxTimed msg now s).pendingHides ∧
    (t ∈ s.pendingHides →
      (hideTimerFires t s).messageBox
        = { visible := false, content := "" }) := by
  refine ⟨rfl, ?_, ?_⟩
  · simp [showCustomMessageBoxTimed]
  · intro h
    simp [hideTimerFires, h]

/-- Witness for C9 (amended): the second notify of the race instance, with
the stale deadline 3000 pending. -/
theorem notify_shows_and_any_timer_hides_witness :
    (showCustomMessageBoxTimed "second" 2000
        (showCustomMessageBoxTimed "first" 0 notifierInit)).messageBox
      = { visible := true, content := "second" } ∧
    (2000 + 3000 : Nat) ∈ (showCustomMessageBoxTimed "second" 2000
        (showCustomMessageBoxTimed "first" 0 notifierInit)).pendingHides ∧
    (hideTimerFires 3000
        (showCustomMessageBoxTimed "first" 0 notifierInit)).messageBox
      = { visible := false, content := "" } := by
  have h := notify_shows_and_any_timer_hides "second" 2000 3000
    (showCustomMessageBoxTimed "first" 0 notifierInit)
  exact ⟨h.1, h.2.1, h.2.2 (by decide)⟩
